import Mathlib

/-!
# ShopVault inventory ledger and order state machine: a shallow embedding

This file embeds the inventory-consistency core of the ShopVault
e-commerce CLI (`src/repositories/ProductRepository.js`,
`src/services/OrderService.js`, `src/services/UserService.js`,
`src/repositories/OrderRepository.js`, `src/services/ProductService.js`)
into Lean 4 and proves the spec's claims about it.

Modelling conventions:
- Mongo ObjectIds are `Nat`; the product collection is an association
  list `Store := List (Nat × Product)`; `findOneAndUpdate` against a
  single document becomes a pure update of the product found under the
  id, `null` results become `Option`/`Except`.
- JS numbers holding counters are `Int`; money values are `ℚ`.
- `Date` timestamps are `Nat` ticks supplied by the caller (the spec's
  injectable clock).
- JS truthiness on optional numbers (`a || b`, which treats a present
  `0` as absent) is modelled explicitly by `jsOrNum`.
-/

namespace ShopVault

/-- Product availability status, `PRODUCT_STATUS` in `config/constants.js`. -/
inductive ProductStatus where
  | AVAILABLE
  | OUT_OF_STOCK
  | DISCONTINUED
  | COMING_SOON
  deriving DecidableEq, Repr

/-- `salesStats` sub-document of a product (`totalSold`, `revenue`,
`lastSoldAt`). -/
structure SalesStats where
  totalSold : Int
  revenue : ℚ
  lastSoldAt : Option Nat
  deriving DecidableEq, Repr

/-- `inventory` sub-document of a product: the three stock counters of the
Stock Ledger. -/
structure Inventory where
  quantity : Int
  reserved : Int
  available : Int
  deriving DecidableEq, Repr

/-- A product document, restricted to the fields the ledger, the order
orchestrator and the sales-stat accrual read or write. -/
structure Product where
  name : String
  sku : String
  price : ℚ
  inventory : Inventory
  status : ProductStatus
  salesStats : SalesStats
  deriving DecidableEq, Repr

/-- The product collection: an association list from ObjectId to document. -/
abbrev Store := List (Nat × Product)

/-- `findById` on the product collection. -/
def findProduct (s : Store) (pid : Nat) : Option Product :=
  match s.find? (fun kv => kv.1 = pid) with
  | some kv => some kv.2
  | none => none

/-- Writing back a single document under its id (the effect of a
`findOneAndUpdate` that matched `_id: pid`). -/
def setProduct (s : Store) (pid : Nat) (p : Product) : Store :=
  s.map (fun kv => if kv.1 = pid then (kv.1, p) else kv)

/-- JS `a || b` on an optional number: a present `0` is falsy and falls
through to the default, exactly as in the source. -/
def jsOrNum (a : Option ℚ) (b : ℚ) : ℚ :=
  match a with
  | some v => if v = 0 then b else v
  | none => b

/-!
## Stock Ledger operations (`ProductRepository.js`)

`updateInventory`, `reserveInventory`, `releaseInventory` each touch one
product document; we embed the per-document mutation as a pure function
on `Product` and lift it to the store where a claim needs the id lookup.
-/

/-- `ProductRepository.updateInventory(productId, quantityChange)`, the
single-pipeline atomic update (lines 261–317): increments
`inventory.quantity` by `quantityChange`, recomputes
`inventory.available = quantity' - reserved`, and sets `status` to
`OUT_OF_STOCK` iff the recomputed available is `<= 0`, else `AVAILABLE`. -/
def updateInventory (quantityChange : Int) (p : Product) : Product :=
  let newQuantity := p.inventory.quantity + quantityChange
  let newAvailable := newQuantity - p.inventory.reserved
  { p with
    inventory := { p.inventory with quantity := newQuantity, available := newAvailable }
    status := if newAvailable ≤ 0 then .OUT_OF_STOCK else .AVAILABLE }

/-- Errors surfaced by the ledger and the order flow. `insufficientStock`
carries the current available and the requested quantity, as reported by
the service-layer message `Insufficient stock ... Available: a,
Requested: q` (`OrderService.js` lines 61–64, `ProductService` removeStock). -/
inductive LedgerError where
  | notFound (pid : Nat)
  | insufficientStock (available requested : Int)
  | reserveFailed
  deriving DecidableEq, Repr

/-- `ProductRepository.reserveInventory(productId, quantity)` (lines
324–364) on the document it found: first the explicit check
`product.inventory.available < quantity` throws insufficient stock, then
the conditional update filtered on `'inventory.available': { $gte: quantity }`
increments `reserved` by `quantity` and `available` by `-quantity`; a
filter miss throws `Failed to reserve inventory`. -/
def reserveInventory (quantity : Int) (p : Product) : Except LedgerError Product :=
  if p.inventory.available < quantity then
    .error (.insufficientStock p.inventory.available quantity)
  else if p.inventory.available ≥ quantity then
    .ok { p with
      inventory := { p.inventory with
        reserved := p.inventory.reserved + quantity
        available := p.inventory.available - quantity } }
  else
    .error .reserveFailed

/-- `ProductRepository.releaseInventory(productId, quantity)` (lines
371–393): unconditionally `$inc` `reserved` by `-quantity` and
`available` by `quantity`. -/
def releaseInventory (quantity : Int) (p : Product) : Product :=
  { p with
    inventory := { p.inventory with
      reserved := p.inventory.reserved - quantity
      available := p.inventory.available + quantity } }

/-- `ProductRepository.updateSalesStats(productId, quantitySold, revenue)`
(lines 455–477): `$inc` `salesStats.totalSold` and `salesStats.revenue`,
`$set` `salesStats.lastSoldAt` to now. -/
def updateSalesStats (quantitySold : Int) (revenue : ℚ) (now : Nat) (p : Product) : Product :=
  { p with salesStats :=
    { totalSold := p.salesStats.totalSold + quantitySold
      revenue := p.salesStats.revenue + revenue
      lastSoldAt := some now } }

/-- One Stock Ledger operation, as named by the spec: `adjust(delta)`,
`reserve(q)`, `release(q)`. -/
inductive LedgerOp where
  | adjust (delta : Int)
  | reserve (q : Int)
  | release (q : Int)
  deriving DecidableEq, Repr

/-- Applying one ledger operation to a product's state. A failed reserve
leaves the document unchanged (the conditional update matched nothing and
the error propagates before any write). -/
def applyOp (op : LedgerOp) (p : Product) : Product :=
  match op with
  | .adjust delta => updateInventory delta p
  | .reserve q =>
    match reserveInventory q p with
    | .ok p' => p'
    | .error _ => p
  | .release q => releaseInventory q p

/-- Applying a finite sequence of ledger operations in order. -/
def applyOps (ops : List LedgerOp) (p : Product) : Product :=
  ops.foldl (fun acc op => applyOp op acc) p

/-- The ledger invariant of spec §3: `available == quantity - reserved`. -/
def ledgerInvariant (p : Product) : Prop :=
  p.inventory.available = p.inventory.quantity - p.inventory.reserved

instance (p : Product) : Decidable (ledgerInvariant p) := by
  unfold ledgerInvariant; infer_instance

/-- `releaseInventory` lifted to the collection: the `findOneAndUpdate`
on `{_id: pid}` updates the matched document and is a no-op (returns
null, no throw) when the id resolves to nothing. -/
def releaseInStore (pid : Nat) (q : Int) (s : Store) : Store :=
  match findProduct s pid with
  | some p => setProduct s pid (releaseInventory q p)
  | none => s

/-- `updateSalesStats` lifted to the collection: `updateOne` on
`{_id: pid}`; a miss updates nothing. -/
def salesStatsInStore (pid : Nat) (quantitySold : Int) (revenue : ℚ) (now : Nat)
    (s : Store) : Store :=
  match findProduct s pid with
  | some p => setProduct s pid (updateSalesStats quantitySold revenue now p)
  | none => s

/-!
## Order model (`models/Order.js`, `config/constants.js`)
-/

/-- `ORDER_STATUS` in `config/constants.js`. -/
inductive OrderStatus where
  | PENDING
  | CONFIRMED
  | PROCESSING
  | SHIPPED
  | DELIVERED
  | CANCELLED
  | REFUNDED
  deriving DecidableEq, Repr, Fintype

/-- One entry of `statusHistory`. -/
structure StatusEntry where
  status : OrderStatus
  timestamp : Nat
  note : String
  updatedBy : String
  deriving DecidableEq, Repr

/-- A line item of an order: the frozen snapshot built in
`OrderService.createOrder` (lines 75–84). -/
structure OrderItem where
  productId : Nat
  name : String
  sku : String
  quantity : Int
  price : ℚ
  discount : ℚ
  subtotal : ℚ
  deriving DecidableEq, Repr

/-- The `pricing` sub-document of an order. -/
structure Pricing where
  subtotal : ℚ
  discount : ℚ
  tax : ℚ
  shipping : ℚ
  total : ℚ
  deriving DecidableEq, Repr

/-- An order document, restricted to the fields the state machine and its
side effects read or write. -/
structure Order where
  orderNumber : String
  userId : Nat
  items : List OrderItem
  pricing : Pricing
  status : OrderStatus
  statusHistory : List StatusEntry
  completedAt : Option Nat
  cancelledAt : Option Nat
  shippedAt : Option Nat
  deriving DecidableEq, Repr

/-- The user's `orderStats` sub-document (`UserService.updateOrderStats`). -/
structure UserOrderStats where
  totalOrders : Int
  totalSpent : ℚ
  lastOrderDate : Option Nat
  deriving DecidableEq, Repr

/-- `UserService.updateOrderStats(userId, orderAmount)` (lines 281–297):
`totalOrders + 1`, `totalSpent + orderAmount`, `lastOrderDate = now`. -/
def updateOrderStats (orderAmount : ℚ) (now : Nat) (u : UserOrderStats) : UserOrderStats :=
  { totalOrders := u.totalOrders + 1
    totalSpent := u.totalSpent + orderAmount
    lastOrderDate := some now }

/-!
## Order state machine (`OrderService.js`)
-/

/-- The `allowedTransitions` object literal in
`OrderService.validateStatusTransition` (lines 236–252). -/
def allowedTransitions : OrderStatus → List OrderStatus
  | .PENDING => [.CONFIRMED, .CANCELLED]
  | .CONFIRMED => [.PROCESSING, .CANCELLED]
  | .PROCESSING => [.SHIPPED, .CANCELLED]
  | .SHIPPED => [.DELIVERED, .CANCELLED]
  | .DELIVERED => [.REFUNDED]
  | .CANCELLED => []
  | .REFUNDED => []

/-- `validateStatusTransition` as a predicate:
`allowedTransitions[currentStatus]?.includes(newStatus)`. -/
def validateStatusTransition (currentStatus newStatus : OrderStatus) : Bool :=
  (allowedTransitions currentStatus).contains newStatus

/-- The transition table exactly as the spec's §4.3 table lists it,
written from the spec's words for comparison with the code's
`allowedTransitions`. -/
def specTransitionTable : List (OrderStatus × OrderStatus) :=
  [(.PENDING, .CONFIRMED), (.PENDING, .CANCELLED),
   (.CONFIRMED, .PROCESSING), (.CONFIRMED, .CANCELLED),
   (.PROCESSING, .SHIPPED), (.PROCESSING, .CANCELLED),
   (.SHIPPED, .DELIVERED), (.SHIPPED, .CANCELLED),
   (.DELIVERED, .REFUNDED)]

/-- Errors thrown by the order service, each constructor one of the
source's error kinds (`NotFoundError`, `BusinessLogicError` flavours,
`ValidationError`). -/
inductive OrderError where
  | userNotFound (userId : Nat)
  | productNotFound (pid : Nat)
  | insufficientStock (available requested : Int)
  | reserveFailed
  | invalidTransition (fromStatus toStatus : OrderStatus)
  | validationFailed
  deriving DecidableEq, Repr

/-- `OrderRepository.updateOrderStatus` (lines 256–287): one
`findOneAndUpdate` that `$set`s `status` and `$push`es the
`{status, timestamp, note, updatedBy}` entry onto `statusHistory`. -/
def repoUpdateOrderStatus (o : Order) (newStatus : OrderStatus)
    (note updatedBy : String) (now : Nat) : Order :=
  { o with
    status := newStatus
    statusHistory := o.statusHistory ++ [⟨newStatus, now, note, updatedBy⟩] }

/-- The world a status change acts on: the product collection, the owning
user's order stats, and the order document being updated. -/
structure World where
  products : Store
  userStats : UserOrderStats
  order : Order
  deriving DecidableEq, Repr

/-- The sequence of elementary repository writes performed by the `switch`
in `OrderService.handleStatusChange` (lines 257–306), in source order:
CANCELLED releases each item's reservation (the RETURN transaction-log
appends touch no state a claim reads); DELIVERED sets `completedAt` then
accrues each item's sales stats; SHIPPED sets `shipping.shippedAt`. The
user's order stats are NOT touched by any branch. -/
def effectsOf (order : Order) (newStatus : OrderStatus) (now : Nat) :
    List (World → World) :=
  match newStatus with
  | .CANCELLED =>
    order.items.map (fun it => fun w =>
      { w with products := releaseInStore it.productId it.quantity w.products })
  | .DELIVERED =>
    (fun w => { w with order := { w.order with completedAt := some now } }) ::
      order.items.map (fun it => fun w =>
        { w with products := salesStatsInStore it.productId it.quantity it.subtotal now w.products })
  | .SHIPPED => [fun w => { w with order := { w.order with shippedAt := some now } }]
  | _ => []

/-- Run a prefix of the elementary writes in order. -/
def runEffects (fs : List (World → World)) (w : World) : World :=
  fs.foldl (fun w f => f w) w

/-- `handleStatusChange` with its enclosing `try { ... } catch (error)
{ logger.warn(...) }`: with `crash = none` every write runs; with
`crash = some k` the `k`-th elementary write throws, so only the first
`k` writes took effect, and the exception is swallowed (degraded to a
warning), never propagated. -/
def handleStatusChange (w : World) (order : Order) (newStatus : OrderStatus)
    (now : Nat) (crash : Option Nat) : World :=
  match crash with
  | none => runEffects (effectsOf order newStatus now) w
  | some k => runEffects ((effectsOf order newStatus now).take k) w

/-- `OrderService.updateOrderStatus(orderId, newStatus, note, updatedBy)`
(lines 203–231): find the order, validate the transition (throwing
`InvalidTransition` on an illegal edge, before anything is written),
persist the status update, then run `handleStatusChange` on the original
order — whose errors are caught inside it — and return the updated order. -/
def updateOrderStatusService (w : World) (newStatus : OrderStatus)
    (note updatedBy : String) (now : Nat) (crash : Option Nat) :
    Except OrderError (World × Order) :=
  let order := w.order
  if validateStatusTransition order.status newStatus then
    let updatedOrder := repoUpdateOrderStatus order newStatus note updatedBy now
    let w1 : World := { w with order := updatedOrder }
    let w2 := handleStatusChange w1 order newStatus now crash
    .ok (w2, updatedOrder)
  else
    .error (.invalidTransition order.status newStatus)

/-!
## Order orchestrator (`OrderService.createOrder`)
-/

/-- One entry of the submitted cart, after Joi validation
(`OrderValidationSchema.items`): `productId`, `quantity` (min 1),
optional `price` override (min 0), `discount` (min 0, default 0). -/
structure CartItem where
  productId : Nat
  quantity : Int
  price : Option ℚ
  discount : ℚ
  deriving DecidableEq, Repr

/-- The optional `pricing` object of the submission: `discount`
(default 0), optional `tax`, `shipping` (default 0), all min 0. -/
structure PricingInput where
  discount : ℚ
  tax : Option ℚ
  shipping : ℚ
  deriving DecidableEq, Repr

/-- The Joi constraints of `OrderValidationSchema` relevant to the
numeric fields: `quantity` min 1, `price`/`discount` min 0. -/
def validCartItem (it : CartItem) : Bool :=
  decide (1 ≤ it.quantity) && decide (0 ≤ it.discount) &&
    it.price.all (fun p => decide (0 ≤ p))

/-- Joi constraints of the `pricing` object: `discount`, `tax`,
`shipping` all min 0. -/
def validPricingInput (pi : PricingInput) : Bool :=
  decide (0 ≤ pi.discount) && pi.tax.all (fun t => decide (0 ≤ t)) &&
    decide (0 ≤ pi.shipping)

/-- `OrderValidationSchema.validate`: at least one item, every numeric
field within its Joi bounds. -/
def validOrderInput (cart : List CartItem) (pricing : Option PricingInput) : Bool :=
  !cart.isEmpty && cart.all validCartItem && pricing.all validPricingInput

/-- The line-item snapshot built inside the loop of `createOrder`
(lines 70–84): `itemPrice = item.price || product.price` (JS `||`:
a supplied 0 falls back to the product price), `itemDiscount =
item.discount || 0`, `itemSubtotal = (itemPrice - itemDiscount) *
item.quantity`. -/
def mkOrderItem (it : CartItem) (product : Product) : OrderItem :=
  let itemPrice := jsOrNum it.price product.price
  let itemDiscount := jsOrNum (some it.discount) 0
  let itemSubtotal := (itemPrice - itemDiscount) * (it.quantity : ℚ)
  { productId := it.productId
    name := product.name
    sku := product.sku
    quantity := it.quantity
    price := itemPrice
    discount := itemDiscount
    subtotal := itemSubtotal }

/-- The per-item loop of `createOrder` (lines 53–98), passing the store
through: look up the product (`NotFound` on a miss), check
`product.inventory.available < item.quantity` (`InsufficientStock` with
both numbers), reserve via `reserveInventory`, snapshot the line item,
accumulate the running subtotal. On any failure the loop stops and the
error propagates; the store as mutated so far is returned unchanged —
there is no rollback of earlier reservations. -/
def processItems (s : Store) :
    List CartItem → Store × Except OrderError (List OrderItem × ℚ)
  | [] => (s, .ok ([], 0))
  | it :: rest =>
    match findProduct s it.productId with
    | none => (s, .error (.productNotFound it.productId))
    | some product =>
      if product.inventory.available < it.quantity then
        (s, .error (.insufficientStock product.inventory.available it.quantity))
      else
        match reserveInventory it.quantity product with
        | .error _ => (s, .error .reserveFailed)
        | .ok p' =>
          let s' := setProduct s it.productId p'
          let oi := mkOrderItem it product
          match processItems s' rest with
          | (s'', .ok (ois, sub)) => (s'', .ok (oi :: ois, oi.subtotal + sub))
          | (s'', .error e) => (s'', .error e)

/-- `OrderService.createOrder` (lines 30–160) over the state a claim can
read: validate, check the user exists, run the reservation loop, compute
`pricing` — `discount = value.pricing?.discount || 0`,
`tax = value.pricing?.tax || subtotal * 0.1`,
`shipping = value.pricing?.shipping || 0`,
`total = subtotal - discount + tax + shipping` — persist the PENDING
order with a single-entry history, then update the user's order stats. -/
def createOrder (s : Store) (userStats : Option UserOrderStats)
    (cart : List CartItem) (pricing : Option PricingInput)
    (orderNumber : String) (userId : Nat) (now : Nat) :
    (Store × Option UserOrderStats) × Except OrderError Order :=
  if validOrderInput cart pricing then
    match userStats with
    | none => ((s, userStats), .error (.userNotFound userId))
    | some u =>
      match processItems s cart with
      | (s', .error e) => ((s', some u), .error e)
      | (s', .ok (ois, subtotal)) =>
        let discount := jsOrNum (pricing.map (fun q => q.discount)) 0
        let tax := jsOrNum (pricing.bind (fun q => q.tax)) (subtotal * (1 / 10))
        let shipping := jsOrNum (pricing.map (fun q => q.shipping)) 0
        let total := subtotal - discount + tax + shipping
        let order : Order :=
          { orderNumber := orderNumber
            userId := userId
            items := ois
            pricing := ⟨subtotal, discount, tax, shipping, total⟩
            status := .PENDING
            statusHistory := [⟨.PENDING, now, "Order created", "SYSTEM"⟩]
            completedAt := none
            cancelledAt := none
            shippedAt := none }
        ((s', some (updateOrderStats total now u)), .ok order)
  else
    ((s, userStats), .error .validationFailed)

/-!
## Repository/service adjust (`updateInventory` at the store,
`ProductService.addStock`)
-/

/-- `ProductRepository.updateInventory` at the collection:
`findOneAndUpdate` on `{_id: pid}` returns the updated document, or null
(`none`) when the id resolves to nothing. -/
def updateInventoryRepo (s : Store) (pid : Nat) (quantityChange : Int) :
    Option (Store × Product) :=
  match findProduct s pid with
  | none => none
  | some p =>
    let p' := updateInventory quantityChange p
    some (setProduct s pid p', p')

/-- `ProductService.addStock(productId, quantity)` (`part_011` lines
239–261): rejects non-positive quantity with a ValidationError, calls
`updateInventory`, and maps a null result to `NotFoundError`. -/
def addStock (s : Store) (pid : Nat) (quantity : Int) :
    Except OrderError (Store × Product) :=
  if quantity ≤ 0 then .error .validationFailed
  else
    match updateInventoryRepo s pid quantity with
    | none => .error (.productNotFound pid)
    | some r => .ok r

/-- Decidable equality of `Except` results, so concrete runs can be
checked by `decide`. -/
instance exceptDecEq {ε α : Type} [DecidableEq ε] [DecidableEq α] :
    DecidableEq (Except ε α) := fun x y =>
  match x, y with
  | .error e, .error f =>
    if h : e = f then .isTrue (by rw [h]) else .isFalse (fun hc => h (Except.error.inj hc))
  | .error _, .ok _ => .isFalse (fun hc => Except.noConfusion hc)
  | .ok _, .error _ => .isFalse (fun hc => Except.noConfusion hc)
  | .ok a, .ok b =>
    if h : a = b then .isTrue (by rw [h]) else .isFalse (fun hc => h (Except.ok.inj hc))

/-- The product-store effect of the DELIVERED branch of
`handleStatusChange`: fold `updateSalesStats` over the order's line
items in order. -/
def accrueStats (now : Nat) (items : List OrderItem) (s : Store) : Store :=
  items.foldl (fun s it => salesStatsInStore it.productId it.quantity it.subtotal now s) s

/-- The order returned by `createOrder`, when it succeeded. -/
def createdOrder (s : Store) (userStats : Option UserOrderStats)
    (cart : List CartItem) (pricing : Option PricingInput)
    (orderNumber : String) (userId : Nat) (now : Nat) : Option Order :=
  match (createOrder s userStats cart pricing orderNumber userId now).2 with
  | .ok o => some o
  | .error _ => none

/-- The world after a status update, when the service reported success. -/
def statusUpdateResultWorld (w : World) (newStatus : OrderStatus) (now : Nat)
    (crash : Option Nat) : Option World :=
  match updateOrderStatusService w newStatus "" "ADMIN" now crash with
  | .ok (w', _) => some w'
  | .error _ => none

/-!
## Concrete sample data, used to instantiate the theorems
-/

/-- An in-stock sample product: spec §8's scenario product
`{quantity: 10, reserved: 3, available: 7}`. -/
def sampleProduct : Product :=
  { name := "Widget"
    sku := "SKU-1"
    price := 100
    inventory := { quantity := 10, reserved := 3, available := 7 }
    status := .AVAILABLE
    salesStats := { totalSold := 0, revenue := 0, lastSoldAt := none } }

/-- A second sample product with scarce stock. -/
def sampleScarce : Product :=
  { name := "Gadget"
    sku := "SKU-2"
    price := 20
    inventory := { quantity := 5, reserved := 4, available := 1 }
    status := .AVAILABLE
    salesStats := { totalSold := 0, revenue := 0, lastSoldAt := none } }

/-- A product whose status was set externally to DISCONTINUED. -/
def sampleDiscontinued : Product :=
  { name := "Legacy"
    sku := "SKU-3"
    price := 50
    inventory := { quantity := 5, reserved := 0, available := 5 }
    status := .DISCONTINUED
    salesStats := { totalSold := 0, revenue := 0, lastSoldAt := none } }

/-- A sample product collection. -/
def sampleStore : Store := [(1, sampleProduct), (2, sampleScarce)]

/-- Fresh user order stats. -/
def zeroStats : UserOrderStats :=
  { totalOrders := 0, totalSpent := 0, lastOrderDate := none }

/-- The Gadget after its single available unit is reserved. -/
def reservedGadget : Product :=
  { sampleScarce with inventory := { quantity := 5, reserved := 5, available := 0 } }

/-- The order `createOrder` builds for one Gadget with default pricing:
subtotal 20, default tax 2 (10%), shipping 0, total 22. -/
def sampleCreatedOrder : Order :=
  { orderNumber := "ORD-W"
    userId := 42
    items := [⟨2, "Gadget", "SKU-2", 1, 20, 0, 20⟩]
    pricing := ⟨20, 0, 2, 0, 22⟩
    status := .PENDING
    statusHistory := [⟨.PENDING, 7, "Order created", "SYSTEM"⟩]
    completedAt := none
    cancelledAt := none
    shippedAt := none }

/-- A line item of two units of product 1 at its price. -/
def sampleOrderItem : OrderItem :=
  { productId := 1
    name := "Widget"
    sku := "SKU-1"
    quantity := 2
    price := 100
    discount := 0
    subtotal := 200 }

/-- An order for `sampleOrderItem` in a given status. -/
def sampleOrderIn (st : OrderStatus) : Order :=
  { orderNumber := "ORD-20261011-0001"
    userId := 42
    items := [sampleOrderItem]
    pricing := ⟨200, 0, 20, 0, 220⟩
    status := st
    statusHistory := [⟨.PENDING, 0, "Order created", "SYSTEM"⟩]
    completedAt := none
    cancelledAt := none
    shippedAt := none }

/-- A world holding `sampleOrderIn st` over `sampleStore` and fresh
user stats. -/
def sampleWorldIn (st : OrderStatus) : World :=
  { products := sampleStore, userStats := zeroStats, order := sampleOrderIn st }

/-!
## Theorems
-/

/-- Helper: one ledger operation preserves `available == quantity - reserved`. -/
theorem applyOp_preserves_ledgerInvariant (op : LedgerOp) (p : Product)
    (h : ledgerInvariant p) : ledgerInvariant (applyOp op p) := by
  cases op with
  | adjust delta =>
    simp [applyOp, updateInventory, ledgerInvariant]
  | reserve q =>
    simp only [applyOp, reserveInventory]
    by_cases hlt : p.inventory.available < q
    · simpa [hlt] using h
    · have hge : p.inventory.available ≥ q := le_of_not_lt hlt
      simp only [hlt, if_false, hge, if_true]
      simp only [ledgerInvariant] at h ⊢
      omega
  | release q =>
    simp only [applyOp, releaseInventory]
    simp only [ledgerInvariant] at h ⊢
    omega

/-- Helper: a whole sequence of ledger operations preserves the invariant. -/
theorem applyOps_preserves_ledgerInvariant (ops : List LedgerOp) :
    ∀ p : Product, ledgerInvariant p → ledgerInvariant (applyOps ops p) := by
  induction ops with
  | nil => intro p h; simpa [applyOps] using h
  | cons op rest ih =>
    intro p h
    have hstep := applyOp_preserves_ledgerInvariant op p h
    simpa [applyOps] using ih (applyOp op p) hstep

/-- C1: starting from any product state with `available == quantity -
reserved`, the identity still holds after each operation of any finite
sequence of adjust/reserve/release ledger operations — i.e. after every
prefix of the sequence. -/
theorem C1_invariant_holds_after_each_op (p : Product) (ops : List LedgerOp)
    (h : ledgerInvariant p) :
    ∀ n : Nat, ledgerInvariant (applyOps (ops.take n) p) := by
  intro n
  exact applyOps_preserves_ledgerInvariant (ops.take n) p h

/-- Witness for C1 at the spec §8 scenario product and the sequence
adjust(+5), reserve(4), release(2), reserve(100). -/
theorem C1_invariant_holds_after_each_op_witness :
    ledgerInvariant sampleProduct ∧
      ∀ n : Nat, ledgerInvariant
        (applyOps ([.adjust 5, .reserve 4, .release 2, .reserve 100].take n) sampleProduct) :=
  ⟨by decide, C1_invariant_holds_after_each_op sampleProduct
    [.adjust 5, .reserve 4, .release 2, .reserve 100] (by decide)⟩

/-- C2: with a non-negative starting `available`, `reserveInventory q`
succeeds exactly when `available ≥ q`; on success `reserved` grows by `q`,
`available` shrinks by `q` and `quantity` is untouched; on failure the
error is `InsufficientStock` carrying the current available and the
requested quantity and the document is unchanged; and in either outcome
the resulting `available` is never negative. -/
theorem C2_reserve_succeeds_iff_available (p : Product) (q : Int)
    (hav : 0 ≤ p.inventory.available) :
    ((∃ p', reserveInventory q p = .ok p') ↔ q ≤ p.inventory.available)
    ∧ (∀ p', reserveInventory q p = .ok p' →
        p'.inventory.reserved = p.inventory.reserved + q
        ∧ p'.inventory.available = p.inventory.available - q
        ∧ p'.inventory.quantity = p.inventory.quantity)
    ∧ (p.inventory.available < q →
        reserveInventory q p = .error (.insufficientStock p.inventory.available q)
        ∧ applyOp (.reserve q) p = p)
    ∧ 0 ≤ (applyOp (.reserve q) p).inventory.available := by
  by_cases hlt : p.inventory.available < q
  · refine ⟨⟨?_, ?_⟩, ?_, ?_, ?_⟩
    · rintro ⟨p', hp'⟩
      simp [reserveInventory, hlt] at hp'
    · intro hq; omega
    · intro p' hp'
      simp [reserveInventory, hlt] at hp'
    · intro _
      exact ⟨by simp [reserveInventory, hlt], by simp [applyOp, reserveInventory, hlt]⟩
    · simpa [applyOp, reserveInventory, hlt] using hav
  · have hge : q ≤ p.inventory.available := le_of_not_lt hlt
    refine ⟨⟨fun _ => hge, fun _ => ?_⟩, ?_, ?_, ?_⟩
    · exact ⟨{ p with inventory := { p.inventory with
          reserved := p.inventory.reserved + q
          available := p.inventory.available - q } },
        by simp [reserveInventory, hlt, hge]⟩
    · intro p' hp'
      simp only [reserveInventory, if_neg hlt, ge_iff_le, if_pos hge] at hp'
      cases hp'
      refine ⟨rfl, rfl, rfl⟩
    · intro hcon; omega
    · simp only [applyOp, reserveInventory, if_neg hlt, ge_iff_le, if_pos hge]
      omega

/-- Witness for C2 at the scenario product (`available = 7`) and `q = 3`. -/
theorem C2_reserve_succeeds_iff_available_witness :
    0 ≤ sampleProduct.inventory.available ∧
      (((∃ p', reserveInventory 3 sampleProduct = .ok p')
          ↔ (3 : Int) ≤ sampleProduct.inventory.available)
      ∧ (∀ p', reserveInventory 3 sampleProduct = .ok p' →
          p'.inventory.reserved = sampleProduct.inventory.reserved + 3
          ∧ p'.inventory.available = sampleProduct.inventory.available - 3
          ∧ p'.inventory.quantity = sampleProduct.inventory.quantity)
      ∧ (sampleProduct.inventory.available < 3 →
          reserveInventory 3 sampleProduct
            = .error (.insufficientStock sampleProduct.inventory.available 3)
          ∧ applyOp (.reserve 3) sampleProduct = sampleProduct)
      ∧ 0 ≤ (applyOp (.reserve 3) sampleProduct).inventory.available) :=
  ⟨by decide, C2_reserve_succeeds_iff_available sampleProduct 3 (by decide)⟩

/-- C3: when `q` is at most the currently reserved amount,
`releaseInventory q` increases `available` by exactly `q`, decreases
`reserved` by exactly `q`, and the resulting `reserved` is non-negative. -/
theorem C3_release_restores_counters (p : Product) (q : Int)
    (h : q ≤ p.inventory.reserved) :
    (releaseInventory q p).inventory.available = p.inventory.available + q
    ∧ (releaseInventory q p).inventory.reserved = p.inventory.reserved - q
    ∧ 0 ≤ (releaseInventory q p).inventory.reserved := by
  refine ⟨rfl, rfl, ?_⟩
  simp only [releaseInventory]
  omega

/-- Witness for C3 at the scenario product (`reserved = 3`) and `q = 3`. -/
theorem C3_release_restores_counters_witness :
    (3 : Int) ≤ sampleProduct.inventory.reserved ∧
      ((releaseInventory 3 sampleProduct).inventory.available
          = sampleProduct.inventory.available + 3
      ∧ (releaseInventory 3 sampleProduct).inventory.reserved
          = sampleProduct.inventory.reserved - 3
      ∧ 0 ≤ (releaseInventory 3 sampleProduct).inventory.reserved) :=
  ⟨by decide, C3_release_restores_counters sampleProduct 3 (by decide)⟩

/-- C4: the code's transition predicate accepts exactly the edges of the
spec's table; a request for any pair outside the table — which includes
every transition out of CANCELLED and REFUNDED and the direct
PENDING→DELIVERED jump — makes `updateOrderStatus` fail with
`InvalidTransition` before anything is written, so the order is
unchanged. -/
theorem C4_transition_table (w : World) (toSt : OrderStatus)
    (note updatedBy : String) (now : Nat) (crash : Option Nat)
    (hillegal : (w.order.status, toSt) ∉ specTransitionTable) :
    (∀ f t : OrderStatus,
        validateStatusTransition f t = true ↔ (f, t) ∈ specTransitionTable)
    ∧ updateOrderStatusService w toSt note updatedBy now crash
        = .error (.invalidTransition w.order.status toSt)
    ∧ (∀ t : OrderStatus, validateStatusTransition .CANCELLED t = false
        ∧ validateStatusTransition .REFUNDED t = false)
    ∧ validateStatusTransition .PENDING .DELIVERED = false := by
  have htable : ∀ f t : OrderStatus,
      validateStatusTransition f t = true ↔ (f, t) ∈ specTransitionTable := by decide
  refine ⟨htable, ?_, by decide, by decide⟩
  have hfalse : validateStatusTransition w.order.status toSt = false := by
    rcases Bool.eq_false_or_eq_true (validateStatusTransition w.order.status toSt) with h | h
    · exact absurd ((htable _ _).mp h) hillegal
    · exact h
  simp [updateOrderStatusService, hfalse]

/-- Witness for C4: requesting CANCELLED→CONFIRMED on the sample order. -/
theorem C4_transition_table_witness :
    ((sampleWorldIn .CANCELLED).order.status, OrderStatus.CONFIRMED) ∉ specTransitionTable
    ∧ ((∀ f t : OrderStatus,
          validateStatusTransition f t = true ↔ (f, t) ∈ specTransitionTable)
      ∧ updateOrderStatusService (sampleWorldIn .CANCELLED) .CONFIRMED "" "ADMIN" 5 none
          = .error (.invalidTransition (sampleWorldIn .CANCELLED).order.status .CONFIRMED)
      ∧ (∀ t : OrderStatus, validateStatusTransition .CANCELLED t = false
          ∧ validateStatusTransition .REFUNDED t = false)
      ∧ validateStatusTransition .PENDING .DELIVERED = false) :=
  ⟨by decide,
    C4_transition_table (sampleWorldIn .CANCELLED) .CONFIRMED "" "ADMIN" 5 none (by decide)⟩

/-- C5: for an id that resolves, `updateInventory` performs the single
document update that adds `delta` to `quantity`, recomputes `available`
as the new quantity minus `reserved`, and derives `status` as
OUT_OF_STOCK iff the recomputed available is ≤ 0, else AVAILABLE; for an
id that resolves to nothing the repository returns null and the service
(`addStock`) turns that into `NotFound`. -/
theorem C5_adjust_semantics (s : Store) (pid : Nat) (delta : Int) :
    (∀ p, findProduct s pid = some p →
      updateInventoryRepo s pid delta
          = some (setProduct s pid (updateInventory delta p), updateInventory delta p)
        ∧ (updateInventory delta p).inventory.quantity = p.inventory.quantity + delta
        ∧ (updateInventory delta p).inventory.available
            = (p.inventory.quantity + delta) - p.inventory.reserved
        ∧ (updateInventory delta p).status
            = (if (updateInventory delta p).inventory.available ≤ 0
                then ProductStatus.OUT_OF_STOCK else ProductStatus.AVAILABLE))
    ∧ (findProduct s pid = none →
        updateInventoryRepo s pid delta = none
        ∧ (0 < delta → addStock s pid delta = .error (.productNotFound pid))) := by
  constructor
  · intro p hp
    refine ⟨by simp [updateInventoryRepo, hp], rfl, rfl, rfl⟩
  · intro hnone
    have hrepo : updateInventoryRepo s pid delta = none := by
      simp [updateInventoryRepo, hnone]
    refine ⟨hrepo, fun hpos => ?_⟩
    have : ¬ delta ≤ 0 := not_le_of_lt hpos
    simp [addStock, this, hrepo]

/-- Witness for C5: adjusting product 1 of the sample store by −20 and
probing a missing id 99. -/
theorem C5_adjust_semantics_witness :
    ((updateInventory (-20) sampleProduct).inventory.quantity
        = sampleProduct.inventory.quantity + (-20)
    ∧ (updateInventory (-20) sampleProduct).status
        = (if (updateInventory (-20) sampleProduct).inventory.available ≤ 0
            then ProductStatus.OUT_OF_STOCK else ProductStatus.AVAILABLE))
    ∧ addStock sampleStore 99 5 = .error (.productNotFound 99) :=
  ⟨⟨((C5_adjust_semantics sampleStore 1 (-20)).1 sampleProduct (by decide)).2.1,
    ((C5_adjust_semantics sampleStore 1 (-20)).1 sampleProduct (by decide)).2.2.2⟩,
   (((C5_adjust_semantics sampleStore 99 5).2 (by decide)).2 (by decide))⟩

/-- C9 counterexample: for the DISCONTINUED sample product (quantity 5,
reserved 0, available 5), adjust(+1) then adjust(−1) restores quantity
and available but ends with status AVAILABLE, not the original
DISCONTINUED — the claim's "restores … status" is false as stated. -/
theorem C9_counterexample :
    (updateInventory (-1) (updateInventory 1 sampleDiscontinued)).status
        ≠ sampleDiscontinued.status
    ∧ (updateInventory (-1) (updateInventory 1 sampleDiscontinued)).inventory.quantity
        = sampleDiscontinued.inventory.quantity
    ∧ (updateInventory (-1) (updateInventory 1 sampleDiscontinued)).inventory.available
        = sampleDiscontinued.inventory.available := by
  decide

/-- C9 (amended): when the starting state satisfies `available ==
quantity - reserved`, adjust(+n) then adjust(−n) restores `quantity` and
`available`; `status` is also restored provided the original status was
the derived one (OUT_OF_STOCK iff available ≤ 0, else AVAILABLE) — an
externally set DISCONTINUED/COMING_SOON status is overwritten by any
adjust and is not restored. -/
theorem C9_adjust_roundtrip_amended (p : Product) (n : Int)
    (hinv : ledgerInvariant p) :
    (updateInventory (-n) (updateInventory n p)).inventory.quantity
        = p.inventory.quantity
    ∧ (updateInventory (-n) (updateInventory n p)).inventory.available
        = p.inventory.available
    ∧ (p.status = (if p.inventory.available ≤ 0 then ProductStatus.OUT_OF_STOCK
          else ProductStatus.AVAILABLE) →
        (updateInventory (-n) (updateInventory n p)).status = p.status) := by
  simp only [ledgerInvariant] at hinv
  simp only [updateInventory]
  have hq : p.inventory.quantity + n + -n = p.inventory.quantity := by ring
  have ha : p.inventory.quantity + n + -n - p.inventory.reserved
      = p.inventory.available := by omega
  refine ⟨hq, ha, fun hstat => ?_⟩
  simp only [ha]
  exact hstat.symm

/-- Witness for C9 (amended) at the scenario product and n = 4. -/
theorem C9_adjust_roundtrip_amended_witness :
    ledgerInvariant sampleProduct ∧
      ((updateInventory (-4) (updateInventory 4 sampleProduct)).inventory.quantity
          = sampleProduct.inventory.quantity
      ∧ (updateInventory (-4) (updateInventory 4 sampleProduct)).inventory.available
          = sampleProduct.inventory.available
      ∧ (sampleProduct.status
            = (if sampleProduct.inventory.available ≤ 0 then ProductStatus.OUT_OF_STOCK
                else ProductStatus.AVAILABLE) →
          (updateInventory (-4) (updateInventory 4 sampleProduct)).status
            = sampleProduct.status)) :=
  ⟨by decide, C9_adjust_roundtrip_amended sampleProduct 4 (by decide)⟩

/-- Helper: writing a document back under an id that resolved makes the
lookup return the new document. -/
theorem findProduct_setProduct_same (s : Store) (pid : Nat) (p p' : Product)
    (h : findProduct s pid = some p) :
    findProduct (setProduct s pid p') pid = some p' := by
  induction s with
  | nil => simp [findProduct] at h
  | cons kv rest ih =>
    by_cases hk : kv.1 = pid
    · simp [findProduct, setProduct, List.find?, hk]
    · have hd : (decide (kv.1 = pid)) = false := decide_eq_false hk
      simp only [findProduct, setProduct, List.map, List.find?, if_neg hk, hd] at h ⊢
      exact ih h

/-- Helper: writing a document under one id leaves lookups of any other
id unchanged. -/
theorem findProduct_setProduct_other (s : Store) (pid pid' : Nat) (p' : Product)
    (hne : pid' ≠ pid) :
    findProduct (setProduct s pid p') pid' = findProduct s pid' := by
  induction s with
  | nil => rfl
  | cons kv rest ih =>
    by_cases hk : kv.1 = pid
    · have hk' : kv.1 ≠ pid' := by rw [hk]; exact fun hc => hne hc.symm
      simp only [findProduct, setProduct, List.map, if_pos hk, List.find?] at *
      have hd : (decide (pid = pid')) = false := by
        simp [decide_eq_false_iff_not]
        exact fun hc => hne hc.symm
      have hd' : (decide (kv.1 = pid')) = false := by
        simp [decide_eq_false_iff_not, hk']
      simp only [hd, hd'] at *
      exact ih
    · simp only [findProduct, setProduct, List.map, if_neg hk, List.find?] at *
      cases hd : decide (kv.1 = pid') with
      | true => simp [hd]
      | false => simp only [hd]; exact ih

/-- Helper: accruing sales stats touches only the item's own document. -/
theorem findProduct_salesStatsInStore_other (s : Store) (pid pid' : Nat)
    (q : Int) (r : ℚ) (now : Nat) (hne : pid' ≠ pid) :
    findProduct (salesStatsInStore pid q r now s) pid' = findProduct s pid' := by
  unfold salesStatsInStore
  cases hf : findProduct s pid with
  | none => rfl
  | some p => exact findProduct_setProduct_other s pid pid' _ hne

/-- Helper: folding sales stats over items none of which carry `pid`
leaves `pid`'s document unchanged. -/
theorem accrueStats_not_mem (items : List OrderItem) (now : Nat) (pid : Nat)
    (h : pid ∉ items.map (fun it => it.productId)) :
    ∀ s : Store, findProduct (accrueStats now items s) pid = findProduct s pid := by
  induction items with
  | nil => intro s; rfl
  | cons it rest ih =>
    intro s
    simp only [List.map, List.mem_cons, not_or] at h
    obtain ⟨hne, hrest⟩ := h
    have hstep : findProduct (salesStatsInStore it.productId it.quantity it.subtotal now s) pid
        = findProduct s pid :=
      findProduct_salesStatsInStore_other s it.productId pid _ _ now hne
    calc findProduct (accrueStats now (it :: rest) s) pid
        = findProduct (accrueStats now rest
            (salesStatsInStore it.productId it.quantity it.subtotal now s)) pid := rfl
      _ = findProduct (salesStatsInStore it.productId it.quantity it.subtotal now s) pid :=
          ih hrest _
      _ = findProduct s pid := hstep

/-- Helper: with pairwise-distinct product ids, the DELIVERED fold
applies exactly one `updateSalesStats` to each item's document. -/
theorem accrueStats_mem (items : List OrderItem) (now : Nat)
    (hnodup : (items.map (fun it => it.productId)).Nodup) :
    ∀ it ∈ items, ∀ s : Store, ∀ p : Product,
      findProduct s it.productId = some p →
      findProduct (accrueStats now items s) it.productId
        = some (updateSalesStats it.quantity it.subtotal now p) := by
  induction items with
  | nil => intro it hmem; exact absurd hmem (List.not_mem_nil it)
  | cons it0 rest ih =>
    intro it hmem s p hfind
    simp only [List.map, List.nodup_cons] at hnodup
    obtain ⟨hfresh, hnodup'⟩ := hnodup
    rcases List.mem_cons.mp hmem with heq | hmem'
    · subst heq
      have hstep : findProduct
          (salesStatsInStore it.productId it.quantity it.subtotal now s) it.productId
          = some (updateSalesStats it.quantity it.subtotal now p) := by
        unfold salesStatsInStore
        rw [hfind]
        exact findProduct_setProduct_same s it.productId p _ hfind
      calc findProduct (accrueStats now (it :: rest) s) it.productId
          = findProduct (accrueStats now rest
              (salesStatsInStore it.productId it.quantity it.subtotal now s)) it.productId := rfl
        _ = findProduct
              (salesStatsInStore it.productId it.quantity it.subtotal now s) it.productId :=
            accrueStats_not_mem rest now it.productId hfresh _
        _ = some (updateSalesStats it.quantity it.subtotal now p) := hstep
    · have hne : it.productId ≠ it0.productId := by
        intro hc
        exact hfresh (hc ▸ List.mem_map_of_mem (fun x => x.productId) hmem')
      have hstep : findProduct
          (salesStatsInStore it0.productId it0.quantity it0.subtotal now s) it.productId
          = some p := by
        rw [findProduct_salesStatsInStore_other s it0.productId it.productId _ _ now hne]
        exact hfind
      calc findProduct (accrueStats now (it0 :: rest) s) it.productId
          = findProduct (accrueStats now rest
              (salesStatsInStore it0.productId it0.quantity it0.subtotal now s)) it.productId := rfl
        _ = some (updateSalesStats it.quantity it.subtotal now p) :=
            ih hnodup' it hmem' _ p hstep

/-- Helper: running the mapped per-item sales-stat effects equals folding
`accrueStats` over the products component. -/
theorem runEffects_statsMap (items : List OrderItem) (now : Nat) :
    ∀ w : World,
      runEffects (items.map (fun it => fun w =>
          { w with products :=
              salesStatsInStore it.productId it.quantity it.subtotal now w.products })) w
        = { w with products := accrueStats now items w.products } := by
  induction items with
  | nil => intro w; rfl
  | cons it rest ih =>
    intro w
    calc runEffects ((it :: rest).map (fun it => fun w =>
            { w with products :=
                salesStatsInStore it.productId it.quantity it.subtotal now w.products })) w
        = runEffects (rest.map (fun it => fun w =>
            { w with products :=
                salesStatsInStore it.productId it.quantity it.subtotal now w.products }))
            { w with products :=
                salesStatsInStore it.productId it.quantity it.subtotal now w.products } := rfl
      _ = { w with products := accrueStats now (it :: rest) w.products } := ih _

/-- Helper: the complete DELIVERED side-effect block sets `completedAt`
on the order, accrues sales stats on the products, and leaves the user's
stats untouched. -/
theorem runEffects_delivered (order : Order) (now : Nat) (w : World) :
    runEffects (effectsOf order .DELIVERED now) w
      = { w with
          order := { w.order with completedAt := some now }
          products := accrueStats now order.items w.products } := by
  calc runEffects (effectsOf order .DELIVERED now) w
      = runEffects (order.items.map (fun it => fun w =>
          { w with products :=
              salesStatsInStore it.productId it.quantity it.subtotal now w.products }))
          { w with order := { w.order with completedAt := some now } } := rfl
    _ = { w with
          order := { w.order with completedAt := some now }
          products := accrueStats now order.items w.products } :=
        runEffects_statsMap order.items now _

/-- Helper: on success, `createOrder` updates the owning user's order
stats with the order's total at creation time. -/
theorem createOrder_updates_user_stats (s : Store) (u : UserOrderStats)
    (cart : List CartItem) (pricing : Option PricingInput)
    (ordn : String) (uid : Nat) (now : Nat)
    (s' : Store) (stats : Option UserOrderStats) (o : Order)
    (hok : createOrder s (some u) cart pricing ordn uid now = ((s', stats), .ok o)) :
    stats = some (updateOrderStats o.pricing.total now u) := by
  by_cases hv : validOrderInput cart pricing
  · rcases hpi : processItems s cart with ⟨s'', r⟩
    cases r with
    | error e =>
      rw [createOrder, if_pos hv] at hok
      rw [hpi] at hok
      simp at hok
    | ok pr =>
      rcases pr with ⟨ois, subtotal⟩
      rw [createOrder, if_pos hv] at hok
      rw [hpi] at hok
      simp only [Prod.mk.injEq, Except.ok.injEq] at hok
      obtain ⟨⟨hs, hstats⟩, ho⟩ := hok
      subst ho
      exact hstats.symm
  · rw [createOrder, if_neg hv] at hok
    simp at hok

/-- C6 counterexample: delivering the sample SHIPPED order succeeds, yet
the owning user's `totalOrders` is still 0 afterwards, not the claimed
`+ 1` — the user's aggregate order stats are not touched at the
DELIVERED transition. -/
theorem C6_counterexample :
    (statusUpdateResultWorld (sampleWorldIn .SHIPPED) .DELIVERED 9 none).map
        (fun w' => w'.userStats.totalOrders) = some 0
    ∧ (sampleWorldIn .SHIPPED).userStats.totalOrders + 1 ≠ (0 : Int) := by
  decide

/-- C6 (amended): transitioning an order to DELIVERED sets `completedAt`
and, for every line item (over pairwise-distinct product ids), adds the
item quantity to the product's `salesStats.totalSold`, the item subtotal
to `salesStats.revenue`, and stamps `lastSoldAt`; the owning user's
aggregate order stats are NOT updated at that transition — they are
updated once, at order creation, by `createOrder` (step 8), with
`totalOrders + 1`, `totalSpent + order.total` and `lastOrderDate` set. -/
theorem C6_delivered_effects_amended (w : World) (note updatedBy : String) (now : Nat)
    (hlegal : validateStatusTransition w.order.status .DELIVERED = true)
    (hnodup : (w.order.items.map (fun it => it.productId)).Nodup) :
    (∃ w', updateOrderStatusService w .DELIVERED note updatedBy now none
        = .ok (w', repoUpdateOrderStatus w.order .DELIVERED note updatedBy now)
      ∧ w'.order.completedAt = some now
      ∧ w'.order.status = .DELIVERED
      ∧ w'.userStats = w.userStats
      ∧ ∀ it ∈ w.order.items, ∀ p, findProduct w.products it.productId = some p →
          findProduct w'.products it.productId
            = some { p with salesStats :=
                { totalSold := p.salesStats.totalSold + it.quantity
                  revenue := p.salesStats.revenue + it.subtotal
                  lastSoldAt := some now } })
    ∧ (∀ s u cart pricing ordn uid t0 s' stats o,
        createOrder s (some u) cart pricing ordn uid t0 = ((s', stats), .ok o) →
        stats = some { totalOrders := u.totalOrders + 1
                       totalSpent := u.totalSpent + o.pricing.total
                       lastOrderDate := some t0 }) := by
  constructor
  · have hrun := runEffects_delivered w.order now
      { w with order := repoUpdateOrderStatus w.order .DELIVERED note updatedBy now }
    have hserv : updateOrderStatusService w .DELIVERED note updatedBy now none
        = .ok (runEffects (effectsOf w.order .DELIVERED now)
            { w with order := repoUpdateOrderStatus w.order .DELIVERED note updatedBy now },
          repoUpdateOrderStatus w.order .DELIVERED note updatedBy now) := by
      simp [updateOrderStatusService, hlegal, handleStatusChange]
    rw [hrun] at hserv
    refine ⟨_, hserv, rfl, rfl, rfl, ?_⟩
    intro it hmem p hfind
    exact accrueStats_mem w.order.items now hnodup it hmem w.products p hfind
  · intro s u cart pricing ordn uid t0 s' stats o hok
    exact createOrder_updates_user_stats s u cart pricing ordn uid t0 s' stats o hok

/-- Witness for C6 (amended): delivering the sample SHIPPED order. -/
theorem C6_delivered_effects_amended_witness :
    validateStatusTransition (sampleWorldIn .SHIPPED).order.status .DELIVERED = true
    ∧ ((sampleWorldIn .SHIPPED).order.items.map (fun it => it.productId)).Nodup
    ∧ ((∃ w', updateOrderStatusService (sampleWorldIn .SHIPPED) .DELIVERED "d" "ADMIN" 9 none
        = .ok (w', repoUpdateOrderStatus (sampleWorldIn .SHIPPED).order .DELIVERED "d" "ADMIN" 9)
      ∧ w'.order.completedAt = some 9
      ∧ w'.order.status = .DELIVERED
      ∧ w'.userStats = (sampleWorldIn .SHIPPED).userStats
      ∧ ∀ it ∈ (sampleWorldIn .SHIPPED).order.items, ∀ p,
          findProduct (sampleWorldIn .SHIPPED).products it.productId = some p →
          findProduct w'.products it.productId
            = some { p with salesStats :=
                { totalSold := p.salesStats.totalSold + it.quantity
                  revenue := p.salesStats.revenue + it.subtotal
                  lastSoldAt := some 9 } })
    ∧ (∀ s u cart pricing ordn uid t0 s' stats o,
        createOrder s (some u) cart pricing ordn uid t0 = ((s', stats), .ok o) →
        stats = some { totalOrders := u.totalOrders + 1
                       totalSpent := u.totalSpent + o.pricing.total
                       lastOrderDate := some t0 })) :=
  ⟨by decide, by decide,
    C6_delivered_effects_amended (sampleWorldIn .SHIPPED) "d" "ADMIN" 9 (by decide) (by decide)⟩

/-- Helper: the reservation loop never touches a product whose id is not
in the cart; in particular the store it hands back on failure keeps every
earlier mutation. -/
theorem processItems_fst_frame (cart : List CartItem) :
    ∀ (s : Store) (pid : Nat), pid ∉ cart.map (fun c => c.productId) →
      findProduct (processItems s cart).1 pid = findProduct s pid := by
  induction cart with
  | nil => intro s pid _; rfl
  | cons it rest ih =>
    intro s pid h
    simp only [List.map, List.mem_cons, not_or] at h
    obtain ⟨hne, hrest⟩ := h
    cases hfp : findProduct s it.productId with
    | none => simp [processItems, hfp]
    | some product =>
      by_cases hav : product.inventory.available < it.quantity
      · simp [processItems, hfp, hav]
      · have hge : product.inventory.available ≥ it.quantity := le_of_not_lt hav
        have hres : reserveInventory it.quantity product
            = .ok { product with inventory := { product.inventory with
                reserved := product.inventory.reserved + it.quantity
                available := product.inventory.available - it.quantity } } := by
          simp [reserveInventory, hav, hge]
        rcases hrec : processItems (setProduct s it.productId
            { product with inventory := { product.inventory with
                reserved := product.inventory.reserved + it.quantity
                available := product.inventory.available - it.quantity } }) rest with ⟨s'', r⟩
        have hih := ih (setProduct s it.productId
            { product with inventory := { product.inventory with
                reserved := product.inventory.reserved + it.quantity
                available := product.inventory.available - it.quantity } }) pid hrest
        rw [hrec] at hih
        have hset : findProduct (setProduct s it.productId
            { product with inventory := { product.inventory with
                reserved := product.inventory.reserved + it.quantity
                available := product.inventory.available - it.quantity } }) pid
            = findProduct s pid :=
          findProduct_setProduct_other s it.productId pid _ hne
        cases r with
        | ok pr =>
          simp only [processItems, hfp, if_neg hav, hres, hrec]
          rcases pr with ⟨ois, sub⟩
          simpa [hset] using hih
        | error e =>
          simp only [processItems, hfp, if_neg hav, hres, hrec]
          simpa [hset] using hih

/-- C7: in a multi-item submission whose first item reserves successfully
and whose remaining items then fail (NotFound or InsufficientStock),
`createOrder` surfaces the error with the store as mutated so far: the
first product still carries the reservation (`reserved` increased and
`available` decreased by its quantity) — nothing is rolled back. -/
theorem C7_partial_reservations_not_released (s : Store) (it : CartItem)
    (rest : List CartItem) (p : Product) (u : UserOrderStats)
    (pricing : Option PricingInput) (ordn : String) (uid : Nat) (now : Nat)
    (e : OrderError)
    (hfind : findProduct s it.productId = some p)
    (hav : ¬ p.inventory.available < it.quantity)
    (hfresh : it.productId ∉ rest.map (fun c => c.productId))
    (hvalid : validOrderInput (it :: rest) pricing = true)
    (hfail : (processItems (setProduct s it.productId
        { p with inventory := { p.inventory with
            reserved := p.inventory.reserved + it.quantity
            available := p.inventory.available - it.quantity } }) rest).2 = .error e) :
    createOrder s (some u) (it :: rest) pricing ordn uid now
        = (((processItems s (it :: rest)).1, some u), .error e)
    ∧ findProduct (processItems s (it :: rest)).1 it.productId
        = some { p with inventory := { p.inventory with
            reserved := p.inventory.reserved + it.quantity
            available := p.inventory.available - it.quantity } } := by
  have hge : p.inventory.available ≥ it.quantity := le_of_not_lt hav
  have hres : reserveInventory it.quantity p
      = .ok { p with inventory := { p.inventory with
          reserved := p.inventory.reserved + it.quantity
          available := p.inventory.available - it.quantity } } := by
    simp [reserveInventory, hav, hge]
  rcases hrec : processItems (setProduct s it.productId
      { p with inventory := { p.inventory with
          reserved := p.inventory.reserved + it.quantity
          available := p.inventory.available - it.quantity } }) rest with ⟨s'', r⟩
  rw [hrec] at hfail
  simp only at hfail
  subst hfail
  have hstep : processItems s (it :: rest) = (s'', .error e) := by
    simp only [processItems, hfind, if_neg hav, hres, hrec]
  have hframe := processItems_fst_frame rest (setProduct s it.productId
      { p with inventory := { p.inventory with
          reserved := p.inventory.reserved + it.quantity
          available := p.inventory.available - it.quantity } }) it.productId hfresh
  rw [hrec] at hframe
  constructor
  · rw [hstep]
    simp only [createOrder, if_pos hvalid, hstep]
  · rw [hstep]
    simp only [hframe]
    exact findProduct_setProduct_same s it.productId p _ hfind

/-- Witness for C7: a two-item cart over the sample store — 2 Widgets
(available 7) then 5 Gadgets (available 1). The second item fails with
InsufficientStock (available 1, requested 5) and the Widget keeps its
reservation of 2. -/
theorem C7_partial_reservations_not_released_witness :
    findProduct sampleStore 1 = some sampleProduct
    ∧ ¬ sampleProduct.inventory.available < 2
    ∧ (createOrder sampleStore (some zeroStats)
        [⟨1, 2, none, 0⟩, ⟨2, 5, none, 0⟩] none "ORD-X" 42 7
        = (((processItems sampleStore [⟨1, 2, none, 0⟩, ⟨2, 5, none, 0⟩]).1, some zeroStats),
            .error (.insufficientStock 1 5))
      ∧ findProduct (processItems sampleStore [⟨1, 2, none, 0⟩, ⟨2, 5, none, 0⟩]).1 1
          = some { sampleProduct with inventory := { sampleProduct.inventory with
              reserved := sampleProduct.inventory.reserved + 2
              available := sampleProduct.inventory.available - 2 } }) :=
  ⟨by decide, by decide,
    C7_partial_reservations_not_released sampleStore ⟨1, 2, none, 0⟩ [⟨2, 5, none, 0⟩]
      sampleProduct zeroStats none "ORD-X" 42 7 (.insufficientStock 1 5)
      (by decide) (by decide) (by decide) (by decide) (by decide)⟩

/-- Helper: every line item the reservation loop emits records
`subtotal = (price - discount) * quantity` over its own snapshotted
fields. -/
theorem processItems_item_subtotals (cart : List CartItem) :
    ∀ (s s' : Store) (ois : List OrderItem) (sub : ℚ),
      processItems s cart = (s', .ok (ois, sub)) →
      ∀ oi ∈ ois, oi.subtotal = (oi.price - oi.discount) * (oi.quantity : ℚ) := by
  induction cart with
  | nil =>
    intro s s' ois sub h oi hmem
    have h2 : Except.ok (ε := OrderError) (([] : List OrderItem), (0 : ℚ))
        = .ok (ois, sub) := congrArg Prod.snd h
    injection h2 with h3
    injection h3 with h4 h5
    rw [← h4] at hmem
    exact absurd hmem (List.not_mem_nil oi)
  | cons it rest ih =>
    intro s s' ois sub h oi hmem
    cases hfp : findProduct s it.productId with
    | none =>
      simp only [processItems, hfp] at h
      have h2 := congrArg Prod.snd h
      exact Except.noConfusion h2
    | some product =>
      by_cases hav : product.inventory.available < it.quantity
      · simp only [processItems, hfp, if_pos hav] at h
        have h2 := congrArg Prod.snd h
        exact Except.noConfusion h2
      · have hge : product.inventory.available ≥ it.quantity := le_of_not_lt hav
        have hres : reserveInventory it.quantity product
            = .ok { product with inventory := { product.inventory with
                reserved := product.inventory.reserved + it.quantity
                available := product.inventory.available - it.quantity } } := by
          simp [reserveInventory, hav, hge]
        rcases hrec : processItems (setProduct s it.productId
            { product with inventory := { product.inventory with
                reserved := product.inventory.reserved + it.quantity
                available := product.inventory.available - it.quantity } }) rest with ⟨s'', r⟩
        cases r with
        | error e =>
          simp only [processItems, hfp, if_neg hav, hres, hrec] at h
          have h2 := congrArg Prod.snd h
          exact Except.noConfusion h2
        | ok pr =>
          rcases pr with ⟨ois', sub'⟩
          simp only [processItems, hfp, if_neg hav, hres, hrec] at h
          have h2 := congrArg Prod.snd h
          injection h2 with h3
          injection h3 with h4 h5
          rw [← h4] at hmem
          rcases List.mem_cons.mp hmem with heq | hmem'
          · subst heq; rfl
          · exact ih _ _ ois' sub' hrec oi hmem'

/-- C8 counterexample: the caller supplies `pricing.tax = 0`, yet the
persisted order carries tax 10 (10% of the 100 subtotal) — JS `||`
treats the supplied 0 as absent, so "tax equals the caller-supplied tax
when one is supplied" is false as stated. -/
theorem C8_counterexample :
    ((some ⟨0, some 0, 0⟩ : Option PricingInput).bind (fun q => q.tax) = some 0)
    ∧ (createdOrder sampleStore (some zeroStats) [⟨1, 1, none, 0⟩]
        (some ⟨0, some 0, 0⟩) "ORD-Y" 42 7).map (fun o => o.pricing.tax) = some 10
    ∧ ((10 : ℚ) ≠ 0) := by
  refine ⟨rfl, ?_, by norm_num⟩
  norm_num [createdOrder, createOrder, validOrderInput, validCartItem, validPricingInput,
    processItems, findProduct, List.find?, sampleStore, sampleProduct, sampleScarce,
    reserveInventory, mkOrderItem, jsOrNum, updateOrderStats, zeroStats]

/-- C8 (amended): on every successful `createOrder`, each line item's
subtotal equals `(price - discount) * quantity` with an absent price
override defaulting to the product's current price, and the persisted
pricing satisfies `total = subtotal - discount + tax + shipping`, where
tax equals the caller-supplied tax when a NONZERO tax is supplied and
defaults to 10% of the subtotal otherwise (a supplied tax of 0 is
treated as absent by the `||` default), and shipping defaults to 0. -/
theorem C8_pricing_amended (s : Store) (u : UserOrderStats)
    (cart : List CartItem) (pricing : Option PricingInput)
    (ordn : String) (uid : Nat) (now : Nat)
    (st : Store × Option UserOrderStats) (o : Order)
    (hok : createOrder s (some u) cart pricing ordn uid now = (st, .ok o))
    (htax : ∀ t, pricing.bind (fun q => q.tax) = some t → t ≠ 0) :
    o.pricing.total
        = o.pricing.subtotal - o.pricing.discount + o.pricing.tax + o.pricing.shipping
    ∧ o.pricing.tax
        = (pricing.bind (fun q => q.tax)).getD (o.pricing.subtotal * (1 / 10))
    ∧ o.pricing.shipping = jsOrNum (pricing.map (fun q => q.shipping)) 0
    ∧ (∀ it ∈ o.items, it.subtotal = (it.price - it.discount) * (it.quantity : ℚ))
    ∧ (∀ (citem : CartItem) (prod : Product), citem.price = none →
        (mkOrderItem citem prod).price = prod.price) := by
  by_cases hv : validOrderInput cart pricing
  · rcases hpi : processItems s cart with ⟨s'', r⟩
    cases r with
    | error e =>
      rw [createOrder, if_pos hv] at hok
      rw [hpi] at hok
      have h2 := congrArg Prod.snd hok
      exact Except.noConfusion h2
    | ok pr =>
      rcases pr with ⟨ois, subtotal⟩
      rw [createOrder, if_pos hv] at hok
      rw [hpi] at hok
      have h2 := congrArg Prod.snd hok
      injection h2 with h3
      subst h3
      refine ⟨rfl, ?_, rfl, ?_, ?_⟩
      · cases hptax : pricing.bind (fun q => q.tax) with
        | none => simp [jsOrNum, hptax]
        | some t =>
          have hne := htax t hptax
          simp [jsOrNum, hptax, hne]
      · intro it hmem
        exact processItems_item_subtotals cart s s'' ois subtotal hpi it hmem
      · intro citem prod hcp
        simp [mkOrderItem, jsOrNum, hcp]
  · rw [createOrder, if_neg hv] at hok
    have h2 := congrArg Prod.snd hok
    exact Except.noConfusion h2

/-- Witness for C8 (amended): one Gadget, no pricing input supplied. -/
theorem C8_pricing_amended_witness :
    createOrder sampleStore (some zeroStats) [⟨2, 1, none, 0⟩] none "ORD-W" 42 7
        = ((setProduct sampleStore 2 reservedGadget,
            some (updateOrderStats 22 7 zeroStats)), .ok sampleCreatedOrder)
    ∧ (sampleCreatedOrder.pricing.total
          = sampleCreatedOrder.pricing.subtotal - sampleCreatedOrder.pricing.discount
            + sampleCreatedOrder.pricing.tax + sampleCreatedOrder.pricing.shipping
      ∧ sampleCreatedOrder.pricing.tax
          = ((none : Option PricingInput).bind (fun q => q.tax)).getD
              (sampleCreatedOrder.pricing.subtotal * (1 / 10))
      ∧ sampleCreatedOrder.pricing.shipping
          = jsOrNum ((none : Option PricingInput).map (fun q => q.shipping)) 0
      ∧ (∀ it ∈ sampleCreatedOrder.items,
          it.subtotal = (it.price - it.discount) * (it.quantity : ℚ))
      ∧ (∀ (citem : CartItem) (prod : Product), citem.price = none →
          (mkOrderItem citem prod).price = prod.price)) :=
  ⟨by
    norm_num [createOrder, validOrderInput, validCartItem, processItems, findProduct,
      List.find?, sampleStore, sampleProduct, sampleScarce, reserveInventory, reservedGadget,
      mkOrderItem, jsOrNum, setProduct, updateOrderStats, zeroStats, sampleCreatedOrder],
    C8_pricing_amended sampleStore zeroStats [⟨2, 1, none, 0⟩] none "ORD-W" 42 7
      (setProduct sampleStore 2 reservedGadget, some (updateOrderStats 22 7 zeroStats))
      sampleCreatedOrder
      (by norm_num [createOrder, validOrderInput, validCartItem, processItems, findProduct,
        List.find?, sampleStore, sampleProduct, sampleScarce, reserveInventory, reservedGadget,
        mkOrderItem, jsOrNum, setProduct, updateOrderStats, zeroStats, sampleCreatedOrder])
      (fun t ht => Option.noConfusion ht)⟩

/-- C10: for every legal transition, `updateOrderStatus` reports success
— it returns the order with the new status and the appended
statusHistory entry — for EVERY side-effect outcome `crash`, including
the one (`crash = some 0`) where the whole side-effect block throws
immediately: then the returned world keeps the original product store,
so an order reaches CANCELLED while its line items' stock is still
reserved. -/
theorem C10_side_effect_errors_swallowed (w : World) (toSt : OrderStatus)
    (note updatedBy : String) (now : Nat) (crash : Option Nat)
    (hlegal : validateStatusTransition w.order.status toSt = true) :
    (∃ w', updateOrderStatusService w toSt note updatedBy now crash
        = .ok (w', repoUpdateOrderStatus w.order toSt note updatedBy now))
    ∧ (repoUpdateOrderStatus w.order toSt note updatedBy now).status = toSt
    ∧ (repoUpdateOrderStatus w.order toSt note updatedBy now).statusHistory
        = w.order.statusHistory ++ [⟨toSt, now, note, updatedBy⟩]
    ∧ (crash = some 0 →
        updateOrderStatusService w toSt note updatedBy now crash
          = .ok ({ w with order := repoUpdateOrderStatus w.order toSt note updatedBy now },
              repoUpdateOrderStatus w.order toSt note updatedBy now)) := by
  refine ⟨⟨handleStatusChange
      { w with order := repoUpdateOrderStatus w.order toSt note updatedBy now }
      w.order toSt now crash,
    by simp [updateOrderStatusService, hlegal]⟩, rfl, rfl, ?_⟩
  rintro rfl
  simp [updateOrderStatusService, hlegal, handleStatusChange, runEffects]

/-- Witness for C10: cancelling the sample PENDING order while the whole
side-effect block fails (`crash = some 0`): the service still reports
success and the store keeps the reservation. -/
theorem C10_side_effect_errors_swallowed_witness :
    validateStatusTransition (sampleWorldIn .PENDING).order.status .CANCELLED = true
    ∧ ((∃ w', updateOrderStatusService (sampleWorldIn .PENDING) .CANCELLED "x" "ADMIN" 8 (some 0)
          = .ok (w', repoUpdateOrderStatus (sampleWorldIn .PENDING).order .CANCELLED "x" "ADMIN" 8))
      ∧ (repoUpdateOrderStatus (sampleWorldIn .PENDING).order .CANCELLED "x" "ADMIN" 8).status
          = .CANCELLED
      ∧ (repoUpdateOrderStatus (sampleWorldIn .PENDING).order .CANCELLED "x" "ADMIN" 8).statusHistory
          = (sampleWorldIn .PENDING).order.statusHistory ++ [⟨.CANCELLED, 8, "x", "ADMIN"⟩]
      ∧ (some 0 = (some 0 : Option Nat) →
          updateOrderStatusService (sampleWorldIn .PENDING) .CANCELLED "x" "ADMIN" 8 (some 0)
            = .ok ({ sampleWorldIn .PENDING with
                order := repoUpdateOrderStatus (sampleWorldIn .PENDING).order .CANCELLED "x" "ADMIN" 8 },
              repoUpdateOrderStatus (sampleWorldIn .PENDING).order .CANCELLED "x" "ADMIN" 8))) :=
  ⟨by decide,
    C10_side_effect_errors_swallowed (sampleWorldIn .PENDING) .CANCELLED "x" "ADMIN" 8 (some 0)
      (by decide)⟩

end ShopVault
